import Mathlib

/-!
Shallow embedding of `src/agent.py` (the longevity-index service): the
static reference tables, the biomarker deviation analyzer, the PubMed
search adapter, the JSON-recovery logic of the two analysis handlers, and
the static read endpoints.

Python floats are modelled as the exact rational numbers they denote,
written as an explicit numerator/denominator pair so that every
comparison is computable by the kernel; a float also carries its Python
`str()` rendering (`rep`), because the deviation analyzer interpolates a
value's text into its messages.  The outbound model completion and the
literature-search HTTP call are opaque collaborators and enter the
embedding as explicit outcome parameters (`Except Unit _`).
-/

/-- A Python float as used by the service: the rational number it denotes
(as `num / den`, with `den` positive for every value the embedding
builds), together with its Python `str()` rendering. -/
structure PyNum where
  num : Int
  den : Nat
  rep : String
  deriving DecidableEq

/-- Python `a < b` on floats, via the denoted rationals
(cross-multiplication). -/
def PyNum.ltb (a b : PyNum) : Bool :=
  decide (a.num * (b.den : Int) < b.num * (a.den : Int))

/-- One value of the `BIOMARKER_RANGES` dict in `src/agent.py`:
`\x7b"optimal": (low, high), "unit": u, "name": n\x7d`. -/
structure BRange where
  optimal : PyNum × PyNum
  unit : String
  name : String
  deriving DecidableEq

/-- `BIOMARKER_RANGES` from `src/agent.py` (lines 42-53), as an
insertion-ordered association list. -/
def BIOMARKER_RANGES : List (String × BRange) :=
  [ ("hba1c", ⟨(⟨9, 2, "4.5"⟩, ⟨26, 5, "5.2"⟩), "%", "HbA1c"⟩),
    ("crp", ⟨(⟨0, 1, "0"⟩, ⟨1, 1, "1.0"⟩), "mg/L", "C-Reactive Protein"⟩),
    ("igf1", ⟨(⟨100, 1, "100"⟩, ⟨200, 1, "200"⟩), "ng/mL", "IGF-1"⟩),
    ("testosterone", ⟨(⟨400, 1, "400"⟩, ⟨700, 1, "700"⟩), "ng/dL", "Testosterone (male)"⟩),
    ("vitamin_d", ⟨(⟨40, 1, "40"⟩, ⟨80, 1, "80"⟩), "ng/mL", "Vitamin D"⟩),
    ("homocysteine", ⟨(⟨0, 1, "0"⟩, ⟨9, 1, "9"⟩), "umol/L", "Homocysteine"⟩),
    ("triglycerides", ⟨(⟨0, 1, "0"⟩, ⟨100, 1, "100"⟩), "mg/dL", "Triglycerides"⟩),
    ("hdl", ⟨(⟨60, 1, "60"⟩, ⟨100, 1, "100"⟩), "mg/dL", "HDL Cholesterol"⟩),
    ("fasting_glucose", ⟨(⟨70, 1, "70"⟩, ⟨90, 1, "90"⟩), "mg/dL", "Fasting Glucose"⟩),
    ("telomere_length", ⟨(⟨7, 1, "7"⟩, ⟨9, 1, "9"⟩), "kb", "Telomere Length"⟩) ]

/-- `LONGEVITY_INTERVENTIONS` from `src/agent.py` (lines 55-59). -/
def LONGEVITY_INTERVENTIONS : List String :=
  [ "caloric restriction", "time-restricted eating", "metformin", "rapamycin",
    "NAD+ precursors", "senolytics", "exercise", "sleep optimization",
    "cold exposure", "heat therapy", "omega-3", "resveratrol" ]

/-- Python's `marker in BIOMARKER_RANGES` plus `BIOMARKER_RANGES[marker]`:
dict lookup (keys are unique, so first match). -/
def lookupRange (marker : String) : Option BRange :=
  (BIOMARKER_RANGES.find? (fun p => p.1 == marker)).map (fun p => p.2)

/-- The f-string of `src/agent.py` line 81. -/
def belowMsg (r : BRange) (v : PyNum) : String :=
  r.name ++ ": " ++ v.rep ++ " " ++ r.unit ++ " (below optimal " ++
    (r.optimal).1.rep ++ "-" ++ (r.optimal).2.rep ++ ")"

/-- The f-string of `src/agent.py` line 83. -/
def aboveMsg (r : BRange) (v : PyNum) : String :=
  r.name ++ ": " ++ v.rep ++ " " ++ r.unit ++ " (above optimal " ++
    (r.optimal).1.rep ++ "-" ++ (r.optimal).2.rep ++ ")"

/-- The body of the loop of `analyze_biomarker_deviations`
(`src/agent.py` lines 76-83): what one entry contributes.
`value < low` is `v.ltb low`; `value > high` is `high.ltb v`. -/
def deviationOf (marker : String) (v : PyNum) : Option String :=
  (lookupRange marker).bind (fun r =>
    if v.ltb (r.optimal).1 then some (belowMsg r v)
    else if (r.optimal).2.ltb v then some (aboveMsg r v)
    else none)

/-- `analyze_biomarker_deviations` from `src/agent.py` (lines 73-84):
appends each entry's message (when any) in input order. -/
def analyze_biomarker_deviations (bm : List (String × PyNum)) : List String :=
  bm.filterMap (fun p => deviationOf p.1 p.2)

/-- Every table entry has a positive denominator on both bounds and its
lower bound at most its upper bound. -/
theorem table_bounds_sane :
    ∀ p ∈ BIOMARKER_RANGES,
      0 < (p.2.optimal).1.den ∧ 0 < (p.2.optimal).2.den ∧
      ((p.2.optimal).2.ltb (p.2.optimal).1) = false := by
  decide

/-- If `low ≤ high` (as the code's comparison) and `high < v`, then
`v < low` is false: needed because the code tests `value < low` first. -/
theorem ltb_low_false_of_above (lo hi v : PyNum) (hden : 0 < hi.den)
    (hle : hi.ltb lo = false) (hv : hi.ltb v = true) :
    v.ltb lo = false := by
  simp only [PyNum.ltb, decide_eq_false_iff_not, decide_eq_true_eq, not_lt] at *
  have hd : (0 : Int) < (hi.den : Int) := by exact_mod_cast hden
  have h1 : lo.num * (hi.den : Int) ≤ hi.num * (lo.den : Int) := hle
  have h2 : hi.num * (v.den : Int) < v.num * (hi.den : Int) := hv
  nlinarith [Int.natCast_nonneg v.den, Int.natCast_nonneg lo.den]

/-- C4: an entry whose identifier is in the reference table and whose
value is strictly below the lower bound contributes exactly one
`below optimal` string, one strictly above the upper bound contributes
exactly one `above optimal` string, and the output preserves the input
mapping's insertion order. -/
theorem deviation_messages (pre suf : List (String × PyNum)) (m : String)
    (v : PyNum) (r : BRange) (hr : lookupRange m = some r) :
    (v.ltb (r.optimal).1 = true →
      analyze_biomarker_deviations (pre ++ (m, v) :: suf) =
        analyze_biomarker_deviations pre ++
          belowMsg r v :: analyze_biomarker_deviations suf) ∧
    ((r.optimal).2.ltb v = true →
      analyze_biomarker_deviations (pre ++ (m, v) :: suf) =
        analyze_biomarker_deviations pre ++
          aboveMsg r v :: analyze_biomarker_deviations suf) := by
  have hp : ∃ p, BIOMARKER_RANGES.find? (fun q => q.1 == m) = some p ∧ p.2 = r := by
    simpa [lookupRange, Option.map_eq_some'] using hr
  obtain ⟨p, hfind, hpr⟩ := hp
  have hmem := List.mem_of_find?_eq_some hfind
  have hsane := table_bounds_sane p hmem
  rw [hpr] at hsane
  constructor
  · intro hv
    simp [analyze_biomarker_deviations, List.filterMap_append,
      List.filterMap_cons, deviationOf, hr, hv]
  · intro hv
    have hnb : v.ltb (r.optimal).1 = false :=
      ltb_low_false_of_above (r.optimal).1 (r.optimal).2 v hsane.2.1 hsane.2.2 hv
    simp [analyze_biomarker_deviations, List.filterMap_append,
      List.filterMap_cons, deviationOf, hr, hnb, hv]

/-- C4 witness: `hba1c = 3.0` yields exactly the single string
`"HbA1c: 3.0 % (below optimal 4.5-5.2)"`. -/
theorem deviation_messages_witness :
    analyze_biomarker_deviations [("hba1c", ⟨3, 1, "3.0"⟩)] =
      ["HbA1c: 3.0 % (below optimal 4.5-5.2)"] :=
  (deviation_messages [] [] "hba1c" ⟨3, 1, "3.0"⟩
      ⟨(⟨9, 2, "4.5"⟩, ⟨26, 5, "5.2"⟩), "%", "HbA1c"⟩ rfl).1 (by decide)

/-- C5: if every recognized identifier's value lies inside its closed
interval (the code's comparisons `value < low` and `value > high` are
both false) while unrecognized identifiers may carry any value, the
analyzer returns the empty sequence. -/
theorem deviation_in_range_empty (bm : List (String × PyNum))
    (h : ∀ p ∈ bm, ∀ r, lookupRange p.1 = some r →
      p.2.ltb (r.optimal).1 = false ∧ (r.optimal).2.ltb p.2 = false) :
    analyze_biomarker_deviations bm = [] := by
  rw [analyze_biomarker_deviations, List.filterMap_eq_nil_iff]
  intro p hp
  rcases hq : lookupRange p.1 with _ | r
  · simp [deviationOf, hq]
  · obtain ⟨h1, h2⟩ := h p hp r hq
    simp [deviationOf, hq, h1, h2]

/-- C5 witness: an in-range recognized marker together with an
unrecognized one (at an arbitrary value) yields the empty output; the
empty mapping does too. -/
theorem deviation_in_range_empty_witness :
    analyze_biomarker_deviations
      [("hba1c", ⟨5, 1, "5.0"⟩), ("made_up_marker", ⟨123, 1, "123.0"⟩)] = [] := by
  refine deviation_in_range_empty _ ?_
  intro p hp r hr
  fin_cases hp
  · rw [show lookupRange "hba1c" =
        some ⟨(⟨9, 2, "4.5"⟩, ⟨26, 5, "5.2"⟩), "%", "HbA1c"⟩ from rfl] at hr
    cases hr
    exact ⟨by decide, by decide⟩
  · rw [show lookupRange "made_up_marker" = none from rfl] at hr
    cases hr

/-! ### Python string primitives used at `src/agent.py` lines 126-127 -/

/-- The opening brace character, `\x7b`. -/
def lbrace : Char := '\x7b'

/-- The closing brace character, `\x7d`. -/
def rbrace : Char := '\x7d'

/-- Index of the first occurrence of `c`, if any. -/
def findAux (c : Char) : List Char → Option Nat
  | [] => none
  | x :: xs => if x = c then some 0 else (findAux c xs).map (fun i => i + 1)

/-- Python `text.find(c)`: first index, or `-1` when absent. -/
def pyFind (c : Char) (s : List Char) : Int :=
  match findAux c s with
  | some i => (i : Int)
  | none => -1

/-- Python `text.rfind(c)`: last index, or `-1` when absent. -/
def pyRfind (c : Char) (s : List Char) : Int :=
  match findAux c s.reverse with
  | some i => (s.length : Int) - 1 - i
  | none => -1

/-- Normalize one Python slice endpoint: negative indices count from the
end and everything is clamped into `[0, length]`. -/
def pyBound (n : Nat) (i : Int) : Nat :=
  if i < 0 then (i + n).toNat else min i.toNat n

/-- Python `s[a:b]` (step 1). -/
def pySlice (s : List Char) (a b : Int) : List Char :=
  (s.drop (pyBound s.length a)).take (pyBound s.length b - pyBound s.length a)

/-- Lines 126-127 of `src/agent.py` (and identically 163-164):
`start = text.find("\x7b")`, `end = text.rfind("\x7d") + 1`,
then the slice `text[start:end]`. -/
def extractJson (text : List Char) : List Char :=
  pySlice text (pyFind lbrace text) (pyRfind rbrace text + 1)

theorem findAux_eq_none (c : Char) (s : List Char) (h : c ∉ s) :
    findAux c s = none := by
  induction s with
  | nil => rfl
  | cons x xs ih =>
    have hx : x ≠ c := fun hxc => h (hxc ▸ List.mem_cons_self x xs)
    have hxs : c ∉ xs := fun hm => h (List.mem_cons_of_mem x hm)
    simp [findAux, hx, ih hxs]

theorem findAux_lt_length (c : Char) (s : List Char) (i : Nat)
    (h : findAux c s = some i) : i < s.length := by
  induction s generalizing i with
  | nil => simp [findAux] at h
  | cons x xs ih =>
    simp only [List.length_cons]
    by_cases hx : x = c
    · simp [findAux, hx] at h
      omega
    · simp [findAux, hx] at h
      rcases h with ⟨j, hj, rfl⟩
      have := ih j hj
      omega

theorem findAux_zero (c : Char) (s : List Char)
    (h : findAux c s = some 0) : ∃ t, s = c :: t := by
  cases s with
  | nil => simp [findAux] at h
  | cons x xs =>
    by_cases hx : x = c
    · exact ⟨xs, by rw [hx]⟩
    · simp [findAux, hx] at h

/-- When the reply contains no `\x7b`, the slice `text[start:end]` is
either empty or the single closing brace (the Python slice semantics of
`text[-1 : rfind+1]`). -/
theorem extractJson_of_no_lbrace (text : List Char) (h : lbrace ∉ text) :
    extractJson text = [] ∨ extractJson text = [rbrace] := by
  have hfind : pyFind lbrace text = -1 := by
    rw [pyFind, findAux_eq_none lbrace text h]
  rcases hr : findAux rbrace text.reverse with _ | i
  · left
    rw [extractJson, hfind, pyRfind, hr]
    simp [pySlice, pyBound]
  · have hi : i < text.length := by
      have := findAux_lt_length rbrace text.reverse i hr
      simpa using this
    have hrf : pyRfind rbrace text = (text.length : Int) - 1 - (i : Int) := by
      simp [pyRfind, hr]
    rw [extractJson, hfind, hrf]
    have hb : pyBound text.length ((text.length : Int) - 1 - (i : Int) + 1) =
        text.length - i := by
      unfold pyBound
      split_ifs <;> omega
    have ha : pyBound text.length (-1) = text.length - 1 := by
      unfold pyBound
      split_ifs <;> omega
    rw [pySlice, hb, ha]
    rcases Nat.eq_zero_or_pos i with hi0 | hipos
    · right
      subst hi0
      obtain ⟨t, ht⟩ := findAux_zero rbrace text.reverse hr
      have htext : text = t.reverse ++ [rbrace] := by
        have := congrArg List.reverse ht
        simpa using this
      rw [htext]
      have hlen : (t.reverse ++ [rbrace]).length = t.length + 1 := by simp
      rw [hlen]
      have h1 : t.length + 1 - 0 - (t.length + 1 - 1) = 1 := by omega
      have h2 : t.length + 1 - 1 = t.reverse.length := by simp
      rw [h1, h2, List.drop_left]
      rfl
    · left
      have : text.length - i - (text.length - 1) = 0 := by omega
      rw [this]
      simp

/-- When the reply contains no `\x7d`, the slice is empty
(`end` collapses to `0`). -/
theorem extractJson_of_no_rbrace (text : List Char) (h : rbrace ∉ text) :
    extractJson text = [] := by
  have hr : findAux rbrace text.reverse = none := by
    apply findAux_eq_none
    simpa using h
  rw [extractJson, pyRfind, hr]
  simp [pySlice, pyBound]

/-! ### A model of `json.loads`

`json.loads` (Python stdlib) parses the slice.  The embedding implements
the JSON grammar directly; numbers are kept as exact fractions
(numerator over a power-of-ten denominator), strings and containers as
their evident Lean counterparts.  Only `json.JSONDecodeError` (modelled
as `Except.error ()`) is caught by the handlers. -/

/-- A parsed JSON number: the exact rational `num / den`. -/
structure Frac where
  num : Int
  den : Nat
  deriving DecidableEq

/-- A decoded JSON value (Python's `dict` keeps insertion order and, for
duplicate keys, the last binding; `jGet` below implements that). -/
inductive JValue where
  | null
  | bool (b : Bool)
  | num (q : Frac)
  | str (s : String)
  | arr (elems : List JValue)
  | obj (members : List (String × JValue))

/-- JSON whitespace skipping. -/
def skipWs : List Char → List Char
  | [] => []
  | c :: cs => if c = ' ' ∨ c = '\t' ∨ c = '\n' ∨ c = '\r' then skipWs cs else c :: cs

/-- Decimal digit value. -/
def digitVal? (c : Char) : Option Nat :=
  if '0' ≤ c ∧ c ≤ '9' then some (c.toNat - '0'.toNat) else none

/-- Longest run of leading decimal digits. -/
def takeDigits : List Char → List Nat × List Char
  | [] => ([], [])
  | c :: cs =>
    match digitVal? c with
    | some d => let r := takeDigits cs; (d :: r.1, r.2)
    | none => ([], c :: cs)

/-- Digits to the number they spell. -/
def digitsToNat (ds : List Nat) : Nat := ds.foldl (fun a d => a * 10 + d) 0

/-- Hexadecimal digit value (for `\uXXXX` escapes). -/
def hexVal? (c : Char) : Option Nat :=
  if '0' ≤ c ∧ c ≤ '9' then some (c.toNat - '0'.toNat)
  else if 'a' ≤ c ∧ c ≤ 'f' then some (c.toNat - 'a'.toNat + 10)
  else if 'A' ≤ c ∧ c ≤ 'F' then some (c.toNat - 'F'.toNat + 10)
  else none

/-- JSON number grammar `-?(0|[1-9][0-9]*)(\.[0-9]+)?([eE][+-]?[0-9]+)?`,
returning the exact fraction and the rest of the input. -/
def parseNum (s : List Char) : Option (Frac × List Char) :=
  let sign : Bool × List Char :=
    match s with
    | c :: cs => if c = '-' then (true, cs) else (false, s)
    | [] => (false, [])
  match takeDigits sign.2 with
  | ([], _) => none
  | (ds, r0) =>
    if 1 < ds.length ∧ ds.headD 1 = 0 then none
    else
      let fr : Option ((Nat × Nat) × List Char) :=
        match r0 with
        | '.' :: cs =>
          match takeDigits cs with
          | ([], _) => none
          | (fs, r1) =>
            some ((digitsToNat ds * 10 ^ fs.length + digitsToNat fs, 10 ^ fs.length), r1)
        | _ => some ((digitsToNat ds, 1), r0)
      match fr with
      | none => none
      | some ((m, d), r1) =>
        let ex : Option (Frac × List Char) :=
          match r1 with
          | e :: cs =>
            if e = 'e' ∨ e = 'E' then
              let esign : Bool × List Char :=
                match cs with
                | c2 :: cs2 =>
                  if c2 = '+' then (false, cs2)
                  else if c2 = '-' then (true, cs2) else (false, cs)
                | [] => (false, [])
              match takeDigits esign.2 with
              | ([], _) => none
              | (es, r2) =>
                let k := digitsToNat es
                if esign.1 then some (⟨(m : Int), d * 10 ^ k⟩, r2)
                else some (⟨((m * 10 ^ k : Nat) : Int), d⟩, r2)
            else some (⟨(m : Int), d⟩, r1)
          | [] => some (⟨(m : Int), d⟩, [])
        match ex with
        | none => none
        | some (q, r2) => some (if sign.1 then ⟨-q.num, q.den⟩ else q, r2)

/-- Body of a JSON string after the opening quote, with the standard
escapes; returns the decoded characters and the input after the closing
quote. -/
def parseStrBody (fuel : Nat) (s : List Char) : Option (List Char × List Char) :=
  match fuel with
  | 0 => none
  | fuel + 1 =>
    match s with
    | [] => none
    | c :: cs =>
      if c = '"' then some ([], cs)
      else if c = '\\' then
        let esc : Option (Char × List Char) :=
          match cs with
          | [] => none
          | e :: cs2 =>
            if e = '"' then some ('"', cs2)
            else if e = '\\' then some ('\\', cs2)
            else if e = '/' then some ('/', cs2)
            else if e = 'b' then some ('\x08', cs2)
            else if e = 'f' then some ('\x0c', cs2)
            else if e = 'n' then some ('\n', cs2)
            else if e = 'r' then some ('\r', cs2)
            else if e = 't' then some ('\t', cs2)
            else if e = 'u' then
              match cs2 with
              | a :: b :: c2 :: d :: cs3 =>
                match hexVal? a, hexVal? b, hexVal? c2, hexVal? d with
                | some ha, some hb, some hc, some hd =>
                  some (Char.ofNat (((ha * 16 + hb) * 16 + hc) * 16 + hd), cs3)
                | _, _, _, _ => none
              | _ => none
            else none
        match esc with
        | none => none
        | some (ch, rest) =>
          match parseStrBody fuel rest with
          | none => none
          | some (body, rest2) => some (ch :: body, rest2)
      else if c.toNat < 32 then none
      else
        match parseStrBody fuel cs with
        | none => none
        | some (body, rest2) => some (c :: body, rest2)

mutual

/-- One JSON value, leading whitespace allowed. -/
def parseValue (fuel : Nat) (s : List Char) : Option (JValue × List Char) :=
  match fuel with
  | 0 => none
  | fuel + 1 =>
    match skipWs s with
    | [] => none
    | c :: cs =>
      if c = lbrace then
        match skipWs cs with
        | d :: ds =>
          if d = rbrace then some (.obj [], ds)
          else
            match parseMembers fuel (d :: ds) with
            | some (ms, r) => some (.obj ms, r)
            | none => none
        | [] => none
      else if c = '[' then
        match skipWs cs with
        | d :: ds =>
          if d = ']' then some (.arr [], ds)
          else
            match parseElems fuel (d :: ds) with
            | some (xs, r) => some (.arr xs, r)
            | none => none
        | [] => none
      else if c = '"' then
        match parseStrBody (cs.length + 1) cs with
        | some (body, r) => some (.str (String.mk body), r)
        | none => none
      else if c = 't' then
        match cs with
        | 'r' :: 'u' :: 'e' :: r => some (.bool true, r)
        | _ => none
      else if c = 'f' then
        match cs with
        | 'a' :: 'l' :: 's' :: 'e' :: r => some (.bool false, r)
        | _ => none
      else if c = 'n' then
        match cs with
        | 'u' :: 'l' :: 'l' :: r => some (.null, r)
        | _ => none
      else if c = '-' ∨ (digitVal? c).isSome then
        match parseNum (c :: cs) with
        | some (q, r) => some (.num q, r)
        | none => none
      else none

/-- The members of a JSON object, positioned at the first key. -/
def parseMembers (fuel : Nat) (s : List Char) : Option (List (String × JValue) × List Char) :=
  match fuel with
  | 0 => none
  | fuel + 1 =>
    match skipWs s with
    | '"' :: cs =>
      match parseStrBody (cs.length + 1) cs with
      | none => none
      | some (key, r1) =>
        match skipWs r1 with
        | ':' :: r2 =>
          match parseValue fuel r2 with
          | none => none
          | some (v, r3) =>
            match skipWs r3 with
            | ',' :: r4 =>
              match parseMembers fuel r4 with
              | none => none
              | some (ms, r5) => some ((String.mk key, v) :: ms, r5)
            | d :: r4 =>
              if d = rbrace then some ([(String.mk key, v)], r4) else none
            | [] => none
        | _ => none
    | _ => none

/-- The elements of a JSON array, positioned at the first element. -/
def parseElems (fuel : Nat) (s : List Char) : Option (List JValue × List Char) :=
  match fuel with
  | 0 => none
  | fuel + 1 =>
    match parseValue fuel s with
    | none => none
    | some (v, r1) =>
      match skipWs r1 with
      | ',' :: r2 =>
        match parseElems fuel r2 with
        | none => none
        | some (xs, r3) => some (v :: xs, r3)
      | ']' :: r2 => some ([v], r2)
      | _ => none

end

/-- `json.loads` on the slice: one JSON document, the whole input
consumed up to trailing whitespace; `Except.error ()` is the
`json.JSONDecodeError` the handlers catch. -/
def loads (s : List Char) : Except Unit JValue :=
  match parseValue (s.length + 1) s with
  | some (v, rest) => if skipWs rest = [] then .ok v else .error ()
  | none => .error ()

/-! ### The typed models and the two analysis handlers -/

/-- Python dict lookup on a decoded object: the *last* binding of a key
wins, as when `json` builds a `dict` from repeated keys. -/
def jGet (kvs : List (String × JValue)) (k : String) : Option JValue :=
  match kvs with
  | [] => none
  | (k1, v1) :: rest =>
    match jGet rest k with
    | some r => some r
    | none => if k1 = k then some v1 else none

/-- Coercion of a decoded value into a pydantic `float` field. -/
def coeFloat : JValue → Option Frac
  | .num q => some q
  | _ => none

/-- Coercion of a decoded value into a pydantic `str` field. -/
def coeStr : JValue → Option String
  | .str s => some s
  | _ => none

/-- Coercion of the elements of a decoded list into `str`. -/
def coeStrs : List JValue → Option (List String)
  | [] => some []
  | v :: vs =>
    match coeStr v, coeStrs vs with
    | some s, some ss => some (s :: ss)
    | _, _ => none

/-- Coercion of a decoded value into a pydantic `List[str]` field. -/
def coeStrList : JValue → Option (List String)
  | .arr xs => coeStrs xs
  | _ => none

/-- `BiomarkerProfile` (`src/agent.py` lines 12-16). -/
structure BiomarkerProfile where
  age : Int
  sex : String
  biomarkers : List (String × PyNum)
  lifestyle : Option (List (String × String))

/-- `LongevityScore` (`src/agent.py` lines 18-25). -/
structure LongevityScore where
  biological_age : Frac
  chronological_age : Int
  longevity_score : Frac
  top_risk_factors : List String
  top_interventions : List String
  estimated_healthspan_gain_years : Frac
  summary : String
  deriving DecidableEq

/-- `InterventionQuery` (`src/agent.py` lines 27-30). -/
structure InterventionQuery where
  intervention : String
  age : Int
  current_biomarkers : Option (List (String × PyNum))

/-- `InterventionAnalysis` (`src/agent.py` lines 32-40). -/
structure InterventionAnalysis where
  intervention : String
  evidence_level : String
  expected_lifespan_impact_years : Frac
  expected_healthspan_impact_years : Frac
  mechanisms : List String
  side_effects : List String
  recommended_protocol : String
  pubmed_references : List String
  deriving DecidableEq

/-- Lines 133-141 of `src/agent.py`: build the `LongevityScore` from the
decoded `result` dict, each field read with `result.get(key, default)`
and then validated by pydantic (`chronological_age` is always the
request's age; a present field of the wrong shape fails validation,
giving `none`). -/
def mkLongevityScore (age : Int) (kvs : List (String × JValue)) :
    Option LongevityScore :=
  match coeFloat ((jGet kvs "biological_age").getD (.num ⟨age, 1⟩)),
      coeFloat ((jGet kvs "longevity_score").getD (.num ⟨50, 1⟩)),
      coeStrList ((jGet kvs "top_risk_factors").getD (.arr [])),
      coeStrList ((jGet kvs "top_interventions").getD (.arr [])),
      coeFloat ((jGet kvs "estimated_healthspan_gain_years").getD (.num ⟨0, 1⟩)),
      coeStr ((jGet kvs "summary").getD (.str "")) with
  | some ba, some ls, some rf, some ti, some hg, some sm =>
    some ⟨ba, age, ls, rf, ti, hg, sm⟩
  | _, _, _, _, _, _ => none

/-- Line 170 of `src/agent.py`:
`InterventionAnalysis(intervention=query.intervention, **result)`.
There are no `.get` defaults here: a missing expected field is a pydantic
validation error, and a `"intervention"` key in `result` is a duplicate
keyword argument (`TypeError`); both give `none`.  Unknown extra keys are
ignored by pydantic. -/
def mkInterventionAnalysis (intervention : String)
    (kvs : List (String × JValue)) : Option InterventionAnalysis :=
  match jGet kvs "intervention" with
  | some _ => none
  | none =>
    match (jGet kvs "evidence_level").bind coeStr,
        (jGet kvs "expected_lifespan_impact_years").bind coeFloat,
        (jGet kvs "expected_healthspan_impact_years").bind coeFloat,
        (jGet kvs "mechanisms").bind coeStrList,
        (jGet kvs "side_effects").bind coeStrList,
        (jGet kvs "recommended_protocol").bind coeStr,
        (jGet kvs "pubmed_references").bind coeStrList with
    | some ev, some li, some hi, some me, some se, some rp, some pr =>
      some ⟨intervention, ev, li, hi, me, se, rp, pr⟩
    | _, _, _, _, _, _, _ => none

/-- The fallback dict of `src/agent.py` line 131. -/
def longevityFallback (age : Int) (deviations : List String)
    (text : List Char) : List (String × JValue) :=
  [ ("biological_age", .num ⟨age, 1⟩),
    ("longevity_score", .num ⟨50, 1⟩),
    ("top_risk_factors", .arr ((deviations.take 3).map .str)),
    ("top_interventions", .arr ((LONGEVITY_INTERVENTIONS.take 3).map .str)),
    ("estimated_healthspan_gain_years", .num ⟨2, 1⟩),
    ("summary", .str (String.mk text)) ]

/-- The fallback dict of `src/agent.py` line 168. -/
def interventionFallback (text : List Char) (papers : List String) :
    List (String × JValue) :=
  [ ("evidence_level", .str "moderate"),
    ("expected_lifespan_impact_years", .num ⟨1, 1⟩),
    ("expected_healthspan_impact_years", .num ⟨2, 1⟩),
    ("mechanisms", .arr []),
    ("side_effects", .arr []),
    ("recommended_protocol", .str (String.mk text)),
    ("pubmed_references", .arr (papers.map .str)) ]

/-- `analyze_longevity` (`src/agent.py` lines 86-141), with the outbound
model completion as an explicit outcome: an exception there propagates
(`.error`); on a reply `text`, the slice from the first `\x7b` to the
last `\x7d` is decoded, `json.JSONDecodeError` is replaced by the local
fallback dict, any other decode outcome that is not a dict (impossible
for this slice) or a failing pydantic validation propagates as a server
error. -/
def analyze_longevity (profile : BiomarkerProfile)
    (modelReply : Except Unit (List Char)) : Except Unit LongevityScore :=
  match modelReply with
  | .error e => .error e
  | .ok text =>
    let deviations := analyze_biomarker_deviations profile.biomarkers
    let result : Except Unit (List (String × JValue)) :=
      match loads (extractJson text) with
      | .ok (.obj kvs) => .ok kvs
      | .ok _ => .error ()
      | .error _ => .ok (longevityFallback profile.age deviations text)
    match result with
    | .error e => .error e
    | .ok kvs =>
      match mkLongevityScore profile.age kvs with
      | some s => .ok s
      | none => .error ()

/-- `analyze_intervention` (`src/agent.py` lines 143-170), with the
literature-search result and the outbound model completion as explicit
parameters. -/
def analyze_intervention (query : InterventionQuery) (papers : List String)
    (modelReply : Except Unit (List Char)) : Except Unit InterventionAnalysis :=
  match modelReply with
  | .error e => .error e
  | .ok text =>
    let result : Except Unit (List (String × JValue)) :=
      match loads (extractJson text) with
      | .ok (.obj kvs) => .ok kvs
      | .ok _ => .error ()
      | .error _ => .ok (interventionFallback text papers)
    match result with
    | .error e => .error e
    | .ok kvs =>
      match mkInterventionAnalysis query.intervention kvs with
      | some a => .ok a
      | none => .error ()

/-! ### The literature search adapter and the static endpoints -/

/-- The query parameters of the `esearch.fcgi` call
(`src/agent.py` line 65). -/
structure SearchParams where
  db : String
  term : String
  retmax : Nat
  retmode : String
  deriving DecidableEq

/-- The search endpoint URL (`src/agent.py` line 64). -/
def searchUrl : String := "https://eutils.ncbi.nlm.nih.gov/entrez/eutils/esearch.fcgi"

/-- Line 65: the fixed suffix appended to the query, `retmax=5`,
`retmode=json`. -/
def searchRequestParams (query : String) : SearchParams :=
  ⟨"pubmed", query ++ " longevity aging lifespan", 5, "json"⟩

/-- Line 66: `timeout=10`. -/
def searchTimeoutSeconds : Nat := 10

/-- Python `d.get(k, default)`: only valid on a dict (anything else
raises, which the adapter's bare `except` swallows). -/
def pyGetD (v : JValue) (k : String) (d : JValue) : Except Unit JValue :=
  match v with
  | .obj kvs => .ok ((jGet kvs k).getD d)
  | _ => .error ()

/-- Python `str()` of a result identifier as interpolated at line 69.
Identifiers are strings in practice; the rendering of other shapes is
not modelled (no claim depends on it). -/
def jToStr : JValue → String
  | .str s => s
  | _ => ""

/-- `search_longevity_papers` (`src/agent.py` lines 61-71).  `call` is
the external GET plus `r.json()`, keyed by the URL, the parameters and
the timeout actually passed; any exception anywhere in the `try` block
(`.error`, and the non-list `idlist` shapes whose iteration the model
does not render) yields `[]`. -/
def search_longevity_papers (query : String)
    (call : String → SearchParams → Nat → Except Unit JValue) : List String :=
  let attempt : Except Unit (List String) :=
    match call searchUrl (searchRequestParams query) searchTimeoutSeconds with
    | .error u => .error u
    | .ok data =>
      match pyGetD data "esearchresult" (.obj []) with
      | .error u => .error u
      | .ok es =>
        match pyGetD es "idlist" (.arr []) with
        | .error u => .error u
        | .ok (.arr ids) =>
          .ok ((ids.take 3).map
            (fun pid => "https://pubmed.ncbi.nlm.nih.gov/" ++ jToStr pid ++ "/"))
        | .ok _ => .error ()
  match attempt with
  | .ok urls => urls
  | .error _ => []

/-- `get_biomarker_reference` (`src/agent.py` lines 172-174): returns the
table verbatim. -/
def get_biomarker_reference : List (String × BRange) := BIOMARKER_RANGES

/-- The shape of the `/interventions-list` response. -/
structure InterventionsResponse where
  interventions : List String
  deriving DecidableEq

/-- `get_interventions` (`src/agent.py` lines 176-178): wraps the static
list as `\x7b"interventions": [...]\x7d`. -/
def get_interventions : InterventionsResponse := ⟨LONGEVITY_INTERVENTIONS⟩

/-! ### Helper lemmas -/

theorem coeStrs_map_str (l : List String) :
    coeStrs (l.map JValue.str) = some l := by
  induction l with
  | nil => rfl
  | cons s ss ih => simp [coeStrs, coeStr, ih]

theorem coeStrs_take_map (n : Nat) (l : List String) :
    coeStrs (List.take n (List.map JValue.str l)) = some (l.take n) := by
  have h := coeStrs_map_str (l.take n)
  rwa [List.map_take] at h

theorem jGet_cons_ne (k1 k : String) (v : JValue)
    (kvs : List (String × JValue)) (h : k1 ≠ k) :
    jGet ((k1, v) :: kvs) k = jGet kvs k := by
  cases hq : jGet kvs k <;> simp [jGet, hq, h]

theorem mk_longevityFallback (age : Int) (dev : List String) (text : List Char) :
    mkLongevityScore age (longevityFallback age dev text) =
      some ⟨⟨age, 1⟩, age, ⟨50, 1⟩, dev.take 3,
        LONGEVITY_INTERVENTIONS.take 3, ⟨2, 1⟩, String.mk text⟩ := by
  simp [mkLongevityScore, longevityFallback, jGet, coeFloat, coeStr,
    coeStrList, coeStrs_map_str, coeStrs_take_map]

theorem mk_interventionFallback (i : String) (text : List Char) (papers : List String) :
    mkInterventionAnalysis i (interventionFallback text papers) =
      some ⟨i, "moderate", ⟨1, 1⟩, ⟨2, 1⟩, [], [], String.mk text, papers⟩ := by
  simp [mkInterventionAnalysis, interventionFallback, jGet, coeFloat, coeStr,
    coeStrList, coeStrs, coeStrs_map_str]

theorem analyze_longevity_fallback (profile : BiomarkerProfile) (text : List Char)
    (h : loads (extractJson text) = .error ()) :
    analyze_longevity profile (.ok text) = .ok
      ⟨⟨profile.age, 1⟩, profile.age, ⟨50, 1⟩,
        (analyze_biomarker_deviations profile.biomarkers).take 3,
        LONGEVITY_INTERVENTIONS.take 3, ⟨2, 1⟩, String.mk text⟩ := by
  simp [analyze_longevity, h, mk_longevityFallback]

theorem analyze_intervention_fallback (query : InterventionQuery)
    (papers : List String) (text : List Char)
    (h : loads (extractJson text) = .error ()) :
    analyze_intervention query papers (.ok text) = .ok
      ⟨query.intervention, "moderate", ⟨1, 1⟩, ⟨2, 1⟩, [], [],
        String.mk text, papers⟩ := by
  simp [analyze_intervention, h, mk_interventionFallback]

/-! ### The claims -/

/-- C1: when the reply has no `\x7b`...`\x7d` span, or the slice from the
first `\x7b` to the last `\x7d` fails to decode, the longevity handler
still returns the deterministic fallback record: biological age = the
chronological age, score 50.0, the first 3 deviation strings, the first
3 static intervention names, gain 2.0, and the raw reply text verbatim
as the summary. -/
theorem longevity_unparsable_fallback (profile : BiomarkerProfile)
    (text : List Char)
    (h : lbrace ∉ text ∨ rbrace ∉ text ∨ loads (extractJson text) = .error ()) :
    analyze_longevity profile (.ok text) = .ok
      ⟨⟨profile.age, 1⟩, profile.age, ⟨50, 1⟩,
        (analyze_biomarker_deviations profile.biomarkers).take 3,
        LONGEVITY_INTERVENTIONS.take 3, ⟨2, 1⟩, String.mk text⟩ := by
  have hl : loads (extractJson text) = .error () := by
    rcases h with h | h | h
    · rcases extractJson_of_no_lbrace text h with he | he <;> rw [he] <;> rfl
    · rw [extractJson_of_no_rbrace text h]
      rfl
    · exact h
  exact analyze_longevity_fallback profile text hl

/-- C1 witness: the spec's end-to-end example, age 45 with
`hba1c = 6.0` and a brace-free reply. -/
theorem longevity_unparsable_fallback_witness :
    analyze_longevity ⟨45, "male", [("hba1c", ⟨6, 1, "6.0"⟩)], none⟩
      (.ok "Sorry, I cannot produce JSON.".data) = .ok
      ⟨⟨45, 1⟩, 45, ⟨50, 1⟩, ["HbA1c: 6.0 % (above optimal 4.5-5.2)"],
        ["caloric restriction", "time-restricted eating", "metformin"],
        ⟨2, 1⟩, "Sorry, I cannot produce JSON."⟩ :=
  longevity_unparsable_fallback ⟨45, "male", [("hba1c", ⟨6, 1, "6.0"⟩)], none⟩
    "Sorry, I cannot produce JSON.".data (Or.inl (by decide))

/-- C2 (refuted, code bug): even when the reply decodes as a well-formed
object, the intervention handler does not read fields with defaults: it
passes the decoded dict as keyword arguments, so an object that omits the
expected fields (here the well-formed empty object `\x7b\x7d`) fails
pydantic validation and the request errors instead of degrading. -/
theorem intervention_missing_fields_error :
    loads (extractJson "\x7b\x7d".data) = .ok (.obj []) ∧
    analyze_intervention ⟨"metformin", 50, none⟩ [] (.ok "\x7b\x7d".data) =
      .error () :=
  ⟨rfl, rfl⟩

/-- C7: a failure of the outbound model-completion call itself propagates
to the caller unchanged and produces no fallback record; the fallback is
built only when the call succeeds and its reply does not decode. -/
theorem model_call_failure_propagates (profile : BiomarkerProfile)
    (query : InterventionQuery) (papers : List String) :
    (∀ e, analyze_longevity profile (.error e) = .error e) ∧
    (∀ e, analyze_intervention query papers (.error e) = .error e) ∧
    (∀ text, loads (extractJson text) = .error () →
      analyze_longevity profile (.ok text) = .ok
        ⟨⟨profile.age, 1⟩, profile.age, ⟨50, 1⟩,
          (analyze_biomarker_deviations profile.biomarkers).take 3,
          LONGEVITY_INTERVENTIONS.take 3, ⟨2, 1⟩, String.mk text⟩ ∧
      analyze_intervention query papers (.ok text) = .ok
        ⟨query.intervention, "moderate", ⟨1, 1⟩, ⟨2, 1⟩, [], [],
          String.mk text, papers⟩) :=
  ⟨fun _ => rfl, fun _ => rfl, fun text h =>
    ⟨analyze_longevity_fallback profile text h,
     analyze_intervention_fallback query papers text h⟩⟩

/-- C7 witness: a failing call propagates for both handlers, and a
successful but brace-free reply produces the intervention fallback. -/
theorem model_call_failure_propagates_witness :
    analyze_longevity ⟨45, "male", [], none⟩ (.error ()) = .error () ∧
    analyze_intervention ⟨"metformin", 50, none⟩ [] (.error ()) = .error () ∧
    analyze_intervention ⟨"metformin", 50, none⟩ [] (.ok "no json".data) =
      .ok ⟨"metformin", "moderate", ⟨1, 1⟩, ⟨2, 1⟩, [], [], "no json", []⟩ := by
  obtain ⟨h1, h2, h3⟩ :=
    model_call_failure_propagates ⟨45, "male", [], none⟩ ⟨"metformin", 50, none⟩ []
  exact ⟨h1 (), h2 (), (h3 "no json".data rfl).2⟩

theorem mkLongevityScore_fields (age : Int) (kvs : List (String × JValue))
    (s : LongevityScore) (h : mkLongevityScore age kvs = some s) :
    coeFloat ((jGet kvs "biological_age").getD (.num ⟨age, 1⟩)) =
      some s.biological_age ∧
    coeFloat ((jGet kvs "longevity_score").getD (.num ⟨50, 1⟩)) =
      some s.longevity_score ∧
    coeStrList ((jGet kvs "top_risk_factors").getD (.arr [])) =
      some s.top_risk_factors ∧
    coeStrList ((jGet kvs "top_interventions").getD (.arr [])) =
      some s.top_interventions ∧
    coeFloat ((jGet kvs "estimated_healthspan_gain_years").getD (.num ⟨0, 1⟩)) =
      some s.estimated_healthspan_gain_years ∧
    coeStr ((jGet kvs "summary").getD (.str "")) = some s.summary ∧
    s.chronological_age = age := by
  unfold mkLongevityScore at h
  split at h
  · next ba ls rf ti hg sm h1 h2 h3 h4 h5 h6 =>
    injection h with h7
    subst h7
    exact ⟨h1, h2, h3, h4, h5, h6, rfl⟩
  · cases h

theorem analyze_longevity_ok (profile : BiomarkerProfile)
    (mo : Except Unit (List Char)) (s : LongevityScore)
    (h : analyze_longevity profile mo = .ok s) :
    ∃ kvs, mkLongevityScore profile.age kvs = some s := by
  cases mo with
  | error e => simp [analyze_longevity] at h
  | ok text =>
    rcases hl : loads (extractJson text) with u | v
    · simp only [analyze_longevity, hl] at h
      rcases hmk : mkLongevityScore profile.age
          (longevityFallback profile.age
            (analyze_biomarker_deviations profile.biomarkers) text) with _ | s2
      · rw [hmk] at h
        cases h
      · rw [hmk] at h
        injection h with h2
        subst h2
        exact ⟨_, hmk⟩
    · cases v with
      | obj kvs =>
        simp only [analyze_longevity, hl] at h
        rcases hmk : mkLongevityScore profile.age kvs with _ | s2
        · rw [hmk] at h
          cases h
        · rw [hmk] at h
          injection h with h2
          subst h2
          exact ⟨_, hmk⟩
      | null => simp [analyze_longevity, hl] at h
      | bool b => simp [analyze_longevity, hl] at h
      | num q => simp [analyze_longevity, hl] at h
      | str s2 => simp [analyze_longevity, hl] at h
      | arr xs => simp [analyze_longevity, hl] at h

/-- C3: when the slice from the first `\x7b` to the last `\x7d` decodes
as a well-formed object, the returned record takes each expected field
from that object, and each absent field takes its documented default:
biological age = the chronological age, score 50.0, empty lists, gain
0.0, empty summary. -/
theorem longevity_parse_merge (profile : BiomarkerProfile) (text : List Char)
    (kvs : List (String × JValue)) (s : LongevityScore)
    (hp : loads (extractJson text) = .ok (.obj kvs))
    (hmk : mkLongevityScore profile.age kvs = some s) :
    analyze_longevity profile (.ok text) = .ok s ∧
    (∀ q, jGet kvs "biological_age" = some (.num q) → s.biological_age = q) ∧
    (jGet kvs "biological_age" = none → s.biological_age = ⟨profile.age, 1⟩) ∧
    (∀ q, jGet kvs "longevity_score" = some (.num q) → s.longevity_score = q) ∧
    (jGet kvs "longevity_score" = none → s.longevity_score = ⟨50, 1⟩) ∧
    (jGet kvs "top_risk_factors" = none → s.top_risk_factors = []) ∧
    (jGet kvs "top_interventions" = none → s.top_interventions = []) ∧
    (jGet kvs "estimated_healthspan_gain_years" = none →
      s.estimated_healthspan_gain_years = ⟨0, 1⟩) ∧
    (jGet kvs "summary" = none → s.summary = "") := by
  obtain ⟨f1, f2, f3, f4, f5, f6, _⟩ := mkLongevityScore_fields profile.age kvs s hmk
  refine ⟨by simp [analyze_longevity, hp, hmk], ?_, ?_, ?_, ?_, ?_, ?_, ?_, ?_⟩
  · intro q hq
    rw [hq] at f1
    simp [coeFloat] at f1
    exact f1.symm
  · intro hq
    rw [hq] at f1
    simp [coeFloat] at f1
    exact f1.symm
  · intro q hq
    rw [hq] at f2
    simp [coeFloat] at f2
    exact f2.symm
  · intro hq
    rw [hq] at f2
    simp [coeFloat] at f2
    exact f2.symm
  · intro hq
    rw [hq] at f3
    simp [coeStrList, coeStrs] at f3
    exact f3
  · intro hq
    rw [hq] at f4
    simp [coeStrList, coeStrs] at f4
    exact f4
  · intro hq
    rw [hq] at f5
    simp [coeFloat] at f5
    exact f5.symm
  · intro hq
    rw [hq] at f6
    simp [coeStr] at f6
    exact f6.symm

/-- C3 witness: the spec's example reply
`blah \x7b"biological_age": 42.5, "longevity_score": 80\x7d blah`
gives biological age 42.5 (= 425/10), score 80, and all other fields at
their defaults. -/
theorem longevity_parse_merge_witness :
    analyze_longevity ⟨45, "male", [], none⟩
      (.ok "blah \x7b\"biological_age\": 42.5, \"longevity_score\": 80\x7d blah".data) =
      .ok ⟨⟨425, 10⟩, 45, ⟨80, 1⟩, [], [], ⟨0, 1⟩, ""⟩ :=
  (longevity_parse_merge ⟨45, "male", [], none⟩
    "blah \x7b\"biological_age\": 42.5, \"longevity_score\": 80\x7d blah".data
    [("biological_age", .num ⟨425, 10⟩), ("longevity_score", .num ⟨80, 1⟩)]
    ⟨⟨425, 10⟩, 45, ⟨80, 1⟩, [], [], ⟨0, 1⟩, ""⟩ rfl rfl).1

/-- C9: the returned record's chronological age always equals the
request's age, and a `"chronological_age"` key in the decoded reply is
ignored by the construction. -/
theorem chronological_age_from_request :
    (∀ (profile : BiomarkerProfile) (mo : Except Unit (List Char))
        (s : LongevityScore),
      analyze_longevity profile mo = .ok s → s.chronological_age = profile.age) ∧
    (∀ (age : Int) (v : JValue) (kvs : List (String × JValue)),
      mkLongevityScore age (("chronological_age", v) :: kvs) =
        mkLongevityScore age kvs) := by
  constructor
  · intro profile mo s h
    obtain ⟨kvs, hmk⟩ := analyze_longevity_ok profile mo s h
    exact (mkLongevityScore_fields profile.age kvs s hmk).2.2.2.2.2.2
  · intro age v kvs
    unfold mkLongevityScore
    rw [jGet_cons_ne _ _ _ _ (by decide), jGet_cons_ne _ _ _ _ (by decide),
      jGet_cons_ne _ _ _ _ (by decide), jGet_cons_ne _ _ _ _ (by decide),
      jGet_cons_ne _ _ _ _ (by decide), jGet_cons_ne _ _ _ _ (by decide)]

/-- C9 witness: a reply carrying `"chronological_age": 99` does not
displace the request's age 45. -/
theorem chronological_age_from_request_witness :
    (⟨⟨41, 1⟩, 45, ⟨50, 1⟩, [], [], ⟨0, 1⟩, ""⟩ :
      LongevityScore).chronological_age = 45 :=
  chronological_age_from_request.1 ⟨45, "male", [], none⟩
    (.ok "\x7b\"biological_age\": 41, \"chronological_age\": 99\x7d".data)
    ⟨⟨41, 1⟩, 45, ⟨50, 1⟩, [], [], ⟨0, 1⟩, ""⟩ rfl

/-- The six expected reply fields of the longevity analysis. -/
def longevityReplyFields : List String :=
  [ "biological_age", "longevity_score", "top_risk_factors",
    "top_interventions", "estimated_healthspan_gain_years", "summary" ]

/-- C10: two decoded replies that agree on the six expected fields give
the same output for the same profile; extra unknown fields never affect
the result. -/
theorem longevity_reply_field_agreement (profile : BiomarkerProfile)
    (t1 t2 : List Char) (kvs1 kvs2 : List (String × JValue))
    (h1 : loads (extractJson t1) = .ok (.obj kvs1))
    (h2 : loads (extractJson t2) = .ok (.obj kvs2))
    (hagree : ∀ k ∈ longevityReplyFields, jGet kvs1 k = jGet kvs2 k) :
    analyze_longevity profile (.ok t1) = analyze_longevity profile (.ok t2) := by
  have hmk : mkLongevityScore profile.age kvs1 = mkLongevityScore profile.age kvs2 := by
    unfold mkLongevityScore
    rw [hagree "biological_age" (by simp [longevityReplyFields]),
      hagree "longevity_score" (by simp [longevityReplyFields]),
      hagree "top_risk_factors" (by simp [longevityReplyFields]),
      hagree "top_interventions" (by simp [longevityReplyFields]),
      hagree "estimated_healthspan_gain_years" (by simp [longevityReplyFields]),
      hagree "summary" (by simp [longevityReplyFields])]
  simp [analyze_longevity, h1, h2, hmk]

/-- C10 witness: an extra unknown `"note"` field leaves the output
unchanged. -/
theorem longevity_reply_field_agreement_witness :
    analyze_longevity ⟨45, "male", [], none⟩
      (.ok "\x7b\"biological_age\": 41\x7d".data) =
    analyze_longevity ⟨45, "male", [], none⟩
      (.ok "\x7b\"biological_age\": 41, \"note\": \"hi\"\x7d".data) :=
  longevity_reply_field_agreement ⟨45, "male", [], none⟩ _ _
    [("biological_age", .num ⟨41, 1⟩)]
    [("biological_age", .num ⟨41, 1⟩), ("note", .str "hi")]
    rfl rfl (by intro k hk; fin_cases hk <;> rfl)

theorem search_result_cases (query : String)
    (call : String → SearchParams → Nat → Except Unit JValue) :
    search_longevity_papers query call = [] ∨
    ∃ ids : List JValue, search_longevity_papers query call =
      (ids.take 3).map
        (fun pid => "https://pubmed.ncbi.nlm.nih.gov/" ++ jToStr pid ++ "/") := by
  rcases hc : call searchUrl (searchRequestParams query) searchTimeoutSeconds
    with u | data
  · left
    simp [search_longevity_papers, hc]
  · rcases hes : pyGetD data "esearchresult" (.obj []) with u | es
    · left
      simp [search_longevity_papers, hc, hes]
    · rcases hil : pyGetD es "idlist" (.arr []) with u | il
      · left
        simp [search_longevity_papers, hc, hes, hil]
      · rcases il with _ | b | q | s2 | ids | ms
        · left
          simp [search_longevity_papers, hc, hes, hil]
        · left
          simp [search_longevity_papers, hc, hes, hil]
        · left
          simp [search_longevity_papers, hc, hes, hil]
        · left
          simp [search_longevity_papers, hc, hes, hil]
        · right
          exact ⟨ids, by simp [search_longevity_papers, hc, hes, hil]⟩
        · left
          simp [search_longevity_papers, hc, hes, hil]

/-- C6: the adapter calls the fixed search endpoint with the suffix
`" longevity aging lifespan"` appended to the query, a result bound of 5
and a 10-second timeout; it returns at most the first 3 identifiers in
the canonical article-URL template, and any failure of the external call
yields the empty sequence rather than an error. -/
theorem search_papers_contract (query : String)
    (call : String → SearchParams → Nat → Except Unit JValue) :
    (searchRequestParams query).db = "pubmed" ∧
    (searchRequestParams query).term = query ++ " longevity aging lifespan" ∧
    (searchRequestParams query).retmax = 5 ∧
    (searchRequestParams query).retmode = "json" ∧
    searchTimeoutSeconds = 10 ∧
    (search_longevity_papers query call).length ≤ 3 ∧
    (call searchUrl (searchRequestParams query) searchTimeoutSeconds = .error () →
      search_longevity_papers query call = []) ∧
    (∀ (data es : JValue) (ids : List String),
      call searchUrl (searchRequestParams query) searchTimeoutSeconds = .ok data →
      pyGetD data "esearchresult" (.obj []) = .ok es →
      pyGetD es "idlist" (.arr []) = .ok (.arr (ids.map .str)) →
      search_longevity_papers query call =
        (ids.take 3).map
          (fun pid => "https://pubmed.ncbi.nlm.nih.gov/" ++ pid ++ "/")) := by
  refine ⟨rfl, rfl, rfl, rfl, rfl, ?_, ?_, ?_⟩
  · rcases search_result_cases query call with h | ⟨ids, h⟩ <;> rw [h]
    · simp
    · simp [List.length_take]
  · intro h
    simp [search_longevity_papers, h]
  · intro data es ids hc hes hil
    simp only [search_longevity_papers, hc, hes, hil]
    simp [jToStr, List.map_take, Function.comp_def]

/-- C6 witness: a failing call yields `[]`; a well-formed response with
four identifiers yields the first three article URLs. -/
theorem search_papers_contract_witness :
    search_longevity_papers "metformin" (fun _ _ _ => .error ()) = [] ∧
    search_longevity_papers "metformin"
      (fun _ _ _ => .ok (.obj [("esearchresult", .obj [("idlist",
        .arr [.str "111", .str "222", .str "333", .str "444"])])])) =
      [ "https://pubmed.ncbi.nlm.nih.gov/111/",
        "https://pubmed.ncbi.nlm.nih.gov/222/",
        "https://pubmed.ncbi.nlm.nih.gov/333/" ] := by
  constructor
  · exact (search_papers_contract "metformin" _).2.2.2.2.2.2.1 rfl
  · exact (search_papers_contract "metformin" _).2.2.2.2.2.2.2
      (.obj [("esearchresult", .obj [("idlist",
        .arr [.str "111", .str "222", .str "333", .str "444"])])])
      (.obj [("idlist", .arr [.str "111", .str "222", .str "333", .str "444"])])
      ["111", "222", "333", "444"] rfl rfl rfl

/-- C8: the reference tables hold exactly ten biomarkers (with distinct
identifiers, each mapped to bounds, unit and display name) and exactly
twelve intervention names; the embedding holds them as immutable
constants, and the two read endpoints return them verbatim, the
interventions wrapped as `\x7b"interventions": [...]\x7d`. -/
theorem reference_tables_static :
    BIOMARKER_RANGES.length = 10 ∧
    (BIOMARKER_RANGES.map Prod.fst).Nodup ∧
    LONGEVITY_INTERVENTIONS.length = 12 ∧
    get_biomarker_reference = BIOMARKER_RANGES ∧
    get_interventions = ⟨LONGEVITY_INTERVENTIONS⟩ :=
  ⟨rfl, by decide, rfl, rfl, rfl⟩
